import Mathlib

/-!
Shallow embedding of `pystm32ai/stm32ai.py`, a thin wrapper around the
`stedgeai` executable.  Pure computations (argument-list construction, name
sanitisation, report projection) become Lean functions; the effectful parts
(subprocess invocation, filesystem reads, download/extract) are modelled by an
explicit environment `Env` supplying the outcomes of external operations, and
an effect trace `List Effect` recording the side effects a call performs.
Fallible operations return `Except Err`.
-/

namespace PyStm32Ai

/-- The three platforms distinguished by the module-level code
(`platform.system().lower()`, with `darwin` renamed to `mac`). -/
inductive Platform where
  | windows
  | mac
  | linux
deriving DecidableEq, Repr

/-- `PLATFORM` string as computed at module level. -/
def platformName : Platform → String
  | Platform.windows => "windows"
  | Platform.mac => "mac"
  | Platform.linux => "linux"

/-- `STEDGEAI_VERSION = "2.0"`. -/
def STEDGEAI_VERSION : String := "2.0"

/-- `EXE_NAME = "stedgeai.exe" if PLATFORM == "windows" else "stedgeai"`. -/
def EXE_NAME (p : Platform) : String :=
  if p = Platform.windows then "stedgeai.exe" else "stedgeai"

/-- `DLL_EXT = "dll" if PLATFORM == "windows" else "so"`. -/
def DLL_EXT (p : Platform) : String :=
  if p = Platform.windows then "dll" else "so"

/-- `REL_URL`, the fixed release URL the archive is fetched from. -/
def REL_URL : String :=
  "https://github.com/thibthibaut/pystm32ai/releases/download/v0.2.1"

/-- `ASSET_PATH = DIR_PATH / "assets"`; `dir` stands for `DIR_PATH`, the
package directory.  Path joining is modelled with `/` separators. -/
def ASSET_PATH (dir : String) : String := dir ++ "/assets"

/-- The directory holding the executable:
`ASSET_PATH / "stedgeai" / STEDGEAI_VERSION / "Utilities" / PLATFORM`,
i.e. `EXE_PATH.parent`. -/
def UTIL_DIR (dir : String) (p : Platform) : String :=
  ASSET_PATH dir ++ "/stedgeai/" ++ STEDGEAI_VERSION ++ "/Utilities/" ++ platformName p

/-- `EXE_PATH` as assembled at module level. -/
def EXE_PATH (dir : String) (p : Platform) : String :=
  UTIL_DIR dir p ++ "/" ++ EXE_NAME p

/-- JSON values as produced by `json.load`: objects are association lists with
distinct keys (Python dicts).  Numbers are modelled as integers, which covers
every field the wrapper reads. -/
inductive Json where
  | null
  | bool (b : Bool)
  | num (n : Int)
  | str (s : String)
  | arr (elems : List Json)
  | obj (fields : List (String × Json))

/-- Contents of a file on disk, as seen through `json.load`: either bytes that
parse as a JSON value, or bytes that do not (raising `JSONDecodeError`). -/
inductive FileContent where
  | json (j : Json)
  | invalid

/-- The errors (Python exceptions) the wrapper can surface to its caller. -/
inductive Err where
  | calledProcessError (exitCode : Nat) (argv : List String)
  | fileNotFound (path : String)
  | jsonDecodeError (path : String)
  | keyError (key : String)
  | typeError
  | downloadError
  | extractionError

/-- Observable side effects performed by the wrapper. -/
inductive Effect where
  | mkdir (path : String)
  | download (url : String) (dest : String)
  | extract (archive : String) (dest : String) (password : String)
  | chmod (path : String)
  | runProc (argv : List String)
  | copyFile (src : String) (dst : String)

/-- Environment supplying the outcomes of every external interaction: the
platform, the package directory (`DIR_PATH`), the temporary scratch directory
allocated by `tempfile.TemporaryDirectory`, whether the executable is already
present at `EXE_PATH`, whether the download and the archive extraction
succeed, the exit code `subprocess.run` observes for a given argument list,
and the filesystem contents at read time. -/
structure Env where
  platform : Platform
  pkgDir : String
  tmpDir : String
  exeExists : Bool
  downloadOk : Bool
  extractOk : Bool
  run : List String → Nat
  files : String → Option FileContent

/-- `EXE_PATH` for an environment. -/
def exePath (env : Env) : String := EXE_PATH env.pkgDir env.platform

/-- The 7z password `p = inspect.currentframe().f_code.co_name[::-1]`:
the enclosing function name reversed. -/
def SEVENZ_PASSWORD : String :=
  String.mk ("_check_and_download_executable".data.reverse)

/-- `AR_PATH = EXE_PATH.parents[4] / "stedgeai.7z"`; `parents[4]` of
`EXE_PATH` is `ASSET_PATH`. -/
def arPath (env : Env) : String := ASSET_PATH env.pkgDir ++ "/stedgeai.7z"

/-- `OUT_PATH = EXE_PATH.parents[4]`, the extraction destination. -/
def outPath (env : Env) : String := ASSET_PATH env.pkgDir

/-- `_check_and_download_executable`: returns immediately when `EXE_PATH`
exists; otherwise creates the parent directory, downloads `stedgeai.7z` from
`REL_URL`, and extracts it (password-protected 7z) into `OUT_PATH`.  The
result pairs the effect trace with success or the surfaced error: a failing
`requests.get`/write raises before extraction, a failing extraction raises
after the download. -/
def check_and_download_executable (env : Env) : List Effect × Except Err Unit :=
  if env.exeExists then ([], Except.ok ())
  else if env.downloadOk then
    if env.extractOk then
      ([Effect.mkdir (UTIL_DIR env.pkgDir env.platform),
        Effect.download (REL_URL ++ "/stedgeai.7z") (arPath env),
        Effect.extract (arPath env) (outPath env) SEVENZ_PASSWORD],
       Except.ok ())
    else
      ([Effect.mkdir (UTIL_DIR env.pkgDir env.platform),
        Effect.download (REL_URL ++ "/stedgeai.7z") (arPath env)],
       Except.error Err.extractionError)
  else
    ([Effect.mkdir (UTIL_DIR env.pkgDir env.platform)],
     Except.error Err.downloadError)

/-- `True` when the trace contains a `chmod` effect. -/
def hasChmod : List Effect → Bool
  | [] => false
  | Effect.chmod _ :: _ => true
  | _ :: es => hasChmod es

/-- The whitespace characters of Python's `str.split()` (ASCII range). -/
def isPySpace (c : Char) : Bool :=
  c = ' ' ∨ c = '\t' ∨ c = '\n' ∨ c = '\r' ∨ c = '\x0b' ∨ c = '\x0c'

/-- Python `str.split()` on a character list: split on runs of whitespace,
discarding empty pieces.  `cur` is the (reversed) word being accumulated. -/
def pySplitAux : List Char → List Char → List (List Char)
  | [], cur => if cur.isEmpty then [] else [cur.reverse]
  | c :: cs, cur =>
    if isPySpace c then
      if cur.isEmpty then pySplitAux cs []
      else cur.reverse :: pySplitAux cs []
    else pySplitAux cs (c :: cur)

/-- `name.split()`. -/
def pySplit (s : String) : List (List Char) := pySplitAux s.data []

/-- `.replace("-", "_")` on a single character. -/
def replaceHyphen (c : Char) : Char := if c = '-' then '_' else c

/-- `"".join(name.split()).replace("-", "_")`: the sanitised model name. -/
def sanitize (s : String) : String :=
  String.mk (((pySplit s).flatten).map replaceHyphen)

/-- Options record for `analyse`, with the Python defaults. -/
structure AnalyseParams where
  modelPath : String
  allocateInputs : Bool := true
  allocateOutputs : Bool := true
  fullReport : Bool := false
  optimization : String := "balanced"
  compression : String := "lossless"

/-- Options record for `generate`, with the Python defaults.  `name = none`
models Python `name=None`. -/
structure GenerateParams where
  modelPath : String
  allocateInputs : Bool := true
  allocateOutputs : Bool := true
  optimization : String := "balanced"
  compression : String := "lossless"
  name : Option String := none
  outputDir : String := "."
  dll : Bool := false

/-- The `io_options` list built by `analyse`. -/
def analyseIoOptions (p : AnalyseParams) : List String :=
  (if p.allocateInputs then [] else ["--no-inputs-allocation"]) ++
  (if p.allocateOutputs then [] else ["--no-outputs-allocation"])

/-- The argument list `analyse` passes to `subprocess.run`. -/
def analyseArgs (exe : String) (p : AnalyseParams) (tmpDir : String) : List String :=
  [exe, "analyse", "--target", "stm32",
   "--optimization", p.optimization,
   "--compression", p.compression,
   "-m", p.modelPath,
   "-o", tmpDir,
   "-w", tmpDir,
   "-v", "0"] ++ analyseIoOptions p

/-- The `name` variable after the `if name:` block of `generate`: Python
truthiness means an empty string skips the sanitising reassignment. -/
def sanitizedName : Option String → Option String
  | none => none
  | some s => if s = "" then some s else some (sanitize s)

/-- `net_name = "network" if name is None else name` (with `name` as left by
the `if name:` block). -/
def netName (name : Option String) : String :=
  match sanitizedName name with
  | none => "network"
  | some s => s

/-- The `io_options` list built by `generate`: allocation flags, then
`--name <sanitised>` when `name` is truthy, then `--dll` when requested. -/
def generateIoOptions (q : GenerateParams) : List String :=
  (if q.allocateInputs then [] else ["--no-inputs-allocation"]) ++
  (if q.allocateOutputs then [] else ["--no-outputs-allocation"]) ++
  (match q.name with
   | none => []
   | some s => if s = "" then [] else ["--name", sanitize s]) ++
  (if q.dll then ["--dll"] else [])

/-- The argument list `generate` passes to `subprocess.run`; `-o` is the
caller's output directory, `-w` the scratch directory. -/
def generateArgs (exe : String) (q : GenerateParams) (tmpDir : String) : List String :=
  [exe, "generate", "--target", "stm32",
   "--optimization", q.optimization,
   "--compression", q.compression,
   "-m", q.modelPath,
   "-o", q.outputDir,
   "-w", tmpDir,
   "-v", "0"] ++ generateIoOptions q

/-- `report[key]` on a parsed JSON value: a lookup in a dict, a `KeyError`
when the key is absent, a `TypeError` when the report is not an object. -/
def jsonGet (j : Json) (k : String) : Except Err Json :=
  match j with
  | Json.obj fields =>
    match fields.lookup k with
    | some v => Except.ok v
    | none => Except.error (Err.keyError k)
  | _ => Except.error Err.typeError

/-- The five summary keys projected out when `full_report` is unset. -/
def summaryKeys : List String :=
  ["rom_size", "rom_n_macc", "ram_size", "ram_io_size", "model_size"]

/-- The dict comprehension `{key: report[key] for key in [...]}`: looks each
key up in order, failing on the first absent key. -/
def reportLookup (report : Json) : List String → Except Err (List (String × Json))
  | [] => Except.ok []
  | k :: ks =>
    match jsonGet report k with
    | Except.error e => Except.error e
    | Except.ok v =>
      match reportLookup report ks with
      | Except.error e => Except.error e
      | Except.ok rest => Except.ok ((k, v) :: rest)

/-- The path `os.path.join(tmp_dir, "network_report.json")`. -/
def reportPath (env : Env) : String := env.tmpDir ++ "/network_report.json"

/-- `analyse`: ensure the executable, run it with `check=True` (raising
`CalledProcessError` on a non-zero exit), open and parse
`network_report.json` from the scratch directory (raising `FileNotFoundError`
or `JSONDecodeError`), and return the full report or its five-key
projection. -/
def analyse (env : Env) (p : AnalyseParams) : Except Err Json :=
  match (check_and_download_executable env).2 with
  | Except.error e => Except.error e
  | Except.ok _ =>
    let args := analyseArgs (exePath env) p env.tmpDir
    let code := env.run args
    if code = 0 then
      match env.files (reportPath env) with
      | none => Except.error (Err.fileNotFound (reportPath env))
      | some FileContent.invalid => Except.error (Err.jsonDecodeError (reportPath env))
      | some (FileContent.json report) =>
        if p.fullReport then Except.ok report
        else
          match reportLookup report summaryKeys with
          | Except.error e => Except.error e
          | Except.ok pairs => Except.ok (Json.obj pairs)
    else Except.error (Err.calledProcessError code args)

/-- `generate`: ensure the executable, run it with `check=True`, and when
`dll` is set copy `libai_<net_name>.<DLL_EXT>` from
`tmp/inspector_<net_name>/workspace/lib` into the output directory
(`shutil.copyfile` raising `FileNotFoundError` when the source is absent).
Returns the effect trace together with success or the surfaced error. -/
def generate (env : Env) (q : GenerateParams) : List Effect × Except Err Unit :=
  let effs0 := (check_and_download_executable env).1
  match (check_and_download_executable env).2 with
  | Except.error e => (effs0, Except.error e)
  | Except.ok _ =>
    let args := generateArgs (exePath env) q env.tmpDir
    let code := env.run args
    let effs := effs0 ++ [Effect.runProc args]
    if code = 0 then
      if q.dll then
        let nn := netName q.name
        let dllName := "libai_" ++ nn ++ "." ++ DLL_EXT env.platform
        let src := env.tmpDir ++ "/inspector_" ++ nn ++ "/workspace/lib/" ++ dllName
        let dst := q.outputDir ++ "/" ++ dllName
        match env.files src with
        | none => (effs, Except.error (Err.fileNotFound src))
        | some _ => (effs ++ [Effect.copyFile src dst], Except.ok ())
      else (effs, Except.ok ())
    else (effs, Except.error (Err.calledProcessError code args))

/-- `argparse` `store_true` semantics: the destination is `True` when the flag
occurs in the argument vector, the default otherwise. -/
def storeTrue (argv : List String) (flag : String) (dflt : Bool) : Bool :=
  if flag ∈ argv then true else dflt

/-- The `allocate_inputs` value the CLI `run` function passes to
`analyse`/`generate`: `--allocate-inputs` is declared with
`action="store_true", default=True`. -/
def cliAllocateInputs (argv : List String) : Bool :=
  storeTrue argv "--allocate-inputs" true

/-- The `allocate_outputs` value the CLI `run` function passes to
`analyse`/`generate`: `--allocate-outputs` is declared with
`action="store_true", default=True`. -/
def cliAllocateOutputs (argv : List String) : Bool :=
  storeTrue argv "--allocate-outputs" true

/-- The argument list claim C2 describes for `analyse`, written from the
claim's words: the fixed prefix, then each allocation flag appended iff the
corresponding option is false. -/
def analyseArgsClaim (exe : String) (p : AnalyseParams) (tmpDir : String) : List String :=
  ([exe, "analyse", "--target", "stm32",
    "--optimization", p.optimization,
    "--compression", p.compression,
    "-m", p.modelPath,
    "-o", tmpDir,
    "-w", tmpDir,
    "-v", "0"]
   ++ (if p.allocateInputs = false then ["--no-inputs-allocation"] else []))
   ++ (if p.allocateOutputs = false then ["--no-outputs-allocation"] else [])

/-- The argument list claim C2 describes for `generate`, as stated:
`--name` followed by the sanitised name appended iff *any* name is
supplied. -/
def generateArgsClaim (exe : String) (q : GenerateParams) (tmpDir : String) : List String :=
  ((([exe, "generate", "--target", "stm32",
      "--optimization", q.optimization,
      "--compression", q.compression,
      "-m", q.modelPath,
      "-o", q.outputDir,
      "-w", tmpDir,
      "-v", "0"]
     ++ (if q.allocateInputs = false then ["--no-inputs-allocation"] else []))
     ++ (if q.allocateOutputs = false then ["--no-outputs-allocation"] else []))
     ++ (match q.name with
         | none => []
         | some s => ["--name", sanitize s]))
     ++ (if q.dll then ["--dll"] else [])

/-- The argument list for `generate` as amended: `--name` followed by the
sanitised name appended iff a *nonempty* name is supplied (Python `if name:`
is false for the empty string). -/
def generateArgsClaimAmended (exe : String) (q : GenerateParams) (tmpDir : String) : List String :=
  ((([exe, "generate", "--target", "stm32",
      "--optimization", q.optimization,
      "--compression", q.compression,
      "-m", q.modelPath,
      "-o", q.outputDir,
      "-w", tmpDir,
      "-v", "0"]
     ++ (if q.allocateInputs = false then ["--no-inputs-allocation"] else []))
     ++ (if q.allocateOutputs = false then ["--no-outputs-allocation"] else []))
     ++ (match q.name with
         | none => []
         | some s => if s = "" then [] else ["--name", sanitize s]))
     ++ (if q.dll then ["--dll"] else [])

/-- A concrete parsed report holding all five summary keys. -/
def report0 : Json :=
  Json.obj [("rom_size", Json.num 1000),
            ("rom_n_macc", Json.num 13421668),
            ("ram_size", Json.num 300),
            ("ram_io_size", Json.arr [Json.num 10, Json.num 20]),
            ("model_size", Json.num 220884)]

/-- A concrete environment: executable installed, every subprocess exits 0,
every file read yields the parsed report `report0`. -/
def envOk : Env :=
  { platform := Platform.linux
    pkgDir := "/pkg"
    tmpDir := "/scratch"
    exeExists := true
    downloadOk := true
    extractOk := true
    run := fun _ => 0
    files := fun _ => some (FileContent.json report0) }

/-- A concrete environment where the executable is absent and the download
and extraction succeed. -/
def envMissing : Env :=
  { platform := Platform.linux
    pkgDir := "/pkg"
    tmpDir := "/scratch"
    exeExists := false
    downloadOk := true
    extractOk := true
    run := fun _ => 0
    files := fun _ => none }

/-- `netName` agrees with claim C3's description of the library-name stem:
the sanitised supplied name, or `"network"` when no name was supplied. -/
theorem netName_eq (name : Option String) :
    netName name = (match name with | none => "network" | some s => sanitize s) := by
  cases name with
  | none => rfl
  | some s =>
    by_cases h : s = ""
    · subst h; rfl
    · simp [netName, sanitizedName, h]

/-- C6: when the executable already exists at `EXE_PATH`, the locator returns
with an empty effect trace — no download, no file created or modified — and
succeeds. -/
theorem locator_no_side_effects_when_installed (env : Env)
    (h : env.exeExists = true) :
    check_and_download_executable env = ([], Except.ok ()) := by
  simp [check_and_download_executable, h]

/-- Witness for C6 at the concrete environment `envOk`. -/
theorem locator_no_side_effects_when_installed_witness :
    check_and_download_executable envOk = ([], Except.ok ()) :=
  locator_no_side_effects_when_installed envOk rfl

/-- Counterexample to C7 as stated: on a concrete environment where the
executable is absent and both download and extraction succeed, the
installer's effect trace contains no `chmod` effect — the code never marks
the extracted binary executable. -/
theorem installer_no_chmod_cex :
    hasChmod (check_and_download_executable envMissing).1 = false := rfl

/-- C7 (amended): when the executable is absent, the installer creates the
install directory, downloads `stedgeai.7z` from the fixed release URL, and
extracts the password-protected archive into the install root
(`EXE_PATH.parents[4]`); it fails with a download error when the download
fails, and with an extraction error when extraction fails.  No step marks
the extracted binary executable. -/
theorem installer_download_extract (env : Env)
    (habs : env.exeExists = false) :
    (env.downloadOk = true → env.extractOk = true →
      check_and_download_executable env =
        ([Effect.mkdir (UTIL_DIR env.pkgDir env.platform),
          Effect.download (REL_URL ++ "/stedgeai.7z") (arPath env),
          Effect.extract (arPath env) (outPath env) SEVENZ_PASSWORD],
         Except.ok ())) ∧
    (env.downloadOk = false →
      (check_and_download_executable env).2 = Except.error Err.downloadError) ∧
    (env.downloadOk = true → env.extractOk = false →
      (check_and_download_executable env).2 = Except.error Err.extractionError) := by
  refine ⟨?_, ?_, ?_⟩ <;> intros <;>
    simp [check_and_download_executable, habs, *]

/-- Witness for C7 (amended) at the concrete environment `envMissing`. -/
theorem installer_download_extract_witness :
    check_and_download_executable envMissing =
      ([Effect.mkdir (UTIL_DIR envMissing.pkgDir envMissing.platform),
        Effect.download (REL_URL ++ "/stedgeai.7z") (arPath envMissing),
        Effect.extract (arPath envMissing) (outPath envMissing) SEVENZ_PASSWORD],
       Except.ok ()) :=
  (installer_download_extract envMissing rfl).1 rfl rfl

/-- C9 (refuting theorem): both CLI allocation flags are declared with
`action="store_true"` and `default=True`, so for every argument vector the
dispatched call receives `allocate_inputs = True` and
`allocate_outputs = True`; no CLI input can ever produce `False`. -/
theorem cli_allocation_toggles_always_true (argv : List String) :
    cliAllocateInputs argv = true ∧ cliAllocateOutputs argv = true := by
  constructor <;>
    · simp only [cliAllocateInputs, cliAllocateOutputs, storeTrue]
      split <;> rfl

/-- Counterexample to C2 as stated: when `generate` is called with the empty
string as name (`name` supplied but falsy in Python), no `--name` flag is
appended, so the built argument list differs from the claim's description. -/
theorem generate_args_empty_name_cex :
    generateArgs "exe" { modelPath := "m", name := some "" } "tmp" ≠
      generateArgsClaim "exe" { modelPath := "m", name := some "" } "tmp" := by
  decide

/-- C2 (amended): `analyse` hands the executable exactly the fixed prefix
with each `--no-…-allocation` flag appended iff the corresponding allocation
option is false; `generate` follows the same contract with action
`generate`, the caller's output directory after `-o`, `--name` followed by
the sanitised name appended iff a nonempty name is supplied, and `--dll`
appended iff the dll flag is set. -/
theorem args_contract (exe tmpDir : String) (p : AnalyseParams) (q : GenerateParams) :
    analyseArgs exe p tmpDir = analyseArgsClaim exe p tmpDir ∧
    generateArgs exe q tmpDir = generateArgsClaimAmended exe q tmpDir := by
  constructor
  · cases hai : p.allocateInputs <;> cases hao : p.allocateOutputs <;>
      simp [analyseArgs, analyseArgsClaim, analyseIoOptions, hai, hao]
  · cases hai : q.allocateInputs <;> cases hao : q.allocateOutputs <;>
      cases hd : q.dll <;>
      simp [generateArgs, generateArgsClaimAmended, generateIoOptions, hai, hao, hd]

/-- C5: under a successfully located executable, whenever the spawned
process exits with a non-zero status, `analyse` and `generate` both fail
with `CalledProcessError` carrying that exit code and argument list, with no
retry or local recovery. -/
theorem nonzero_exit_raises (env : Env) (p : AnalyseParams) (q : GenerateParams)
    (hinst : (check_and_download_executable env).2 = Except.ok ())
    (ha : env.run (analyseArgs (exePath env) p env.tmpDir) ≠ 0)
    (hg : env.run (generateArgs (exePath env) q env.tmpDir) ≠ 0) :
    analyse env p =
      Except.error (Err.calledProcessError
        (env.run (analyseArgs (exePath env) p env.tmpDir))
        (analyseArgs (exePath env) p env.tmpDir)) ∧
    (generate env q).2 =
      Except.error (Err.calledProcessError
        (env.run (generateArgs (exePath env) q env.tmpDir))
        (generateArgs (exePath env) q env.tmpDir)) := by
  constructor
  · simp [analyse, hinst, ha]
  · simp [generate, hinst, hg]

/-- Witness for C5: a concrete environment whose subprocess always exits 1. -/
theorem nonzero_exit_raises_witness :
    analyse { envOk with run := fun _ => 1 } { modelPath := "m" } =
      Except.error (Err.calledProcessError 1
        (analyseArgs (exePath { envOk with run := fun _ => 1 })
          { modelPath := "m" } "/scratch")) ∧
    (generate { envOk with run := fun _ => 1 } { modelPath := "m" }).2 =
      Except.error (Err.calledProcessError 1
        (generateArgs (exePath { envOk with run := fun _ => 1 })
          { modelPath := "m" } "/scratch")) :=
  nonzero_exit_raises { envOk with run := fun _ => 1 }
    { modelPath := "m" } { modelPath := "m" } rfl
    (by decide) (by decide)

/-- Concatenating the pieces of `str.split()` yields the original characters
with every whitespace character removed. -/
theorem pySplitAux_flatten (cs : List Char) (cur : List Char) :
    (pySplitAux cs cur).flatten = cur.reverse ++ cs.filter (fun c => !(isPySpace c)) := by
  induction cs generalizing cur with
  | nil =>
    by_cases h : cur.isEmpty
    · simp [pySplitAux, h, List.isEmpty_iff.mp h]
    · simp [pySplitAux, h]
  | cons c cs ih =>
    by_cases hsp : isPySpace c
    · by_cases hcur : cur.isEmpty
      · simp [pySplitAux, hsp, hcur, ih, List.isEmpty_iff.mp hcur]
      · simp [pySplitAux, hsp, hcur, ih]
    · simp [pySplitAux, hsp, ih, List.filter_cons]

/-- C8: every character of the sanitised name is neither a whitespace
character nor a hyphen — `"".join(name.split())` removes all whitespace and
`.replace("-", "_")` removes every hyphen, so the result is a single
token. -/
theorem sanitize_single_token (s : String) (c : Char)
    (h : c ∈ (sanitize s).data) : isPySpace c = false ∧ c ≠ '-' := by
  have hdata : (sanitize s).data =
      ((pySplit s).flatten).map replaceHyphen := rfl
  rw [hdata, pySplit, pySplitAux_flatten] at h
  simp only [List.reverse_nil, List.nil_append, List.mem_map] at h
  obtain ⟨c', hc'mem, hc'eq⟩ := h
  have hc'space : isPySpace c' = false := by
    have := List.of_mem_filter hc'mem
    simpa using this
  subst hc'eq
  by_cases hh : c' = '-'
  · subst hh
    exact ⟨rfl, by decide⟩
  · constructor
    · simpa [replaceHyphen, hh] using hc'space
    · simp [replaceHyphen, hh]

/-- Witness for C8: the sanitised form of a name with spaces and a hyphen is
the single token obtained by concatenation and hyphen replacement, and the
underscore it contains is neither whitespace nor a hyphen. -/
theorem sanitize_single_token_witness :
    sanitize "my model-name" = "mymodel_name" ∧
    (isPySpace '_' = false ∧ '_' ≠ '-') :=
  ⟨by decide, sanitize_single_token "my model-name" '_' (by decide)⟩

/-- C1: on every successful run of `analyse` — executable located, process
exit 0, report parsed, and each of the five summary keys holding some value
in the report — the returned value is the entire parsed report when
`full_report` is set, and otherwise exactly the five-key object mapping
`rom_size`, `rom_n_macc`, `ram_size`, `ram_io_size`, `model_size` to their
values in the report, with no other keys. -/
theorem analyse_success_result (env : Env) (p : AnalyseParams)
    (report v1 v2 v3 v4 v5 : Json)
    (hinst : (check_and_download_executable env).2 = Except.ok ())
    (hrun : env.run (analyseArgs (exePath env) p env.tmpDir) = 0)
    (hfile : env.files (reportPath env) = some (FileContent.json report))
    (h1 : jsonGet report "rom_size" = Except.ok v1)
    (h2 : jsonGet report "rom_n_macc" = Except.ok v2)
    (h3 : jsonGet report "ram_size" = Except.ok v3)
    (h4 : jsonGet report "ram_io_size" = Except.ok v4)
    (h5 : jsonGet report "model_size" = Except.ok v5) :
    (p.fullReport = true → analyse env p = Except.ok report) ∧
    (p.fullReport = false → analyse env p =
      Except.ok (Json.obj [("rom_size", v1), ("rom_n_macc", v2),
        ("ram_size", v3), ("ram_io_size", v4), ("model_size", v5)])) := by
  constructor <;> intro hfr <;>
    simp [analyse, hinst, hrun, hfile, hfr, summaryKeys, reportLookup,
      h1, h2, h3, h4, h5]

/-- Witness for C1 at the concrete environment `envOk` and report
`report0`, in the default (`full_report` unset) mode. -/
theorem analyse_success_result_witness :
    analyse envOk { modelPath := "m" } =
      Except.ok (Json.obj [("rom_size", Json.num 1000),
        ("rom_n_macc", Json.num 13421668),
        ("ram_size", Json.num 300),
        ("ram_io_size", Json.arr [Json.num 10, Json.num 20]),
        ("model_size", Json.num 220884)]) :=
  (analyse_success_result envOk { modelPath := "m" } report0
    (Json.num 1000) (Json.num 13421668) (Json.num 300)
    (Json.arr [Json.num 10, Json.num 20]) (Json.num 220884)
    rfl rfl rfl rfl rfl rfl rfl rfl).2 rfl

/-- C4: after a successful external-process run, `analyse` reads
`network_report.json` from the scratch directory; it fails with the
underlying `FileNotFoundError` when the file is missing and with the
underlying `JSONDecodeError` when its contents are not valid JSON, with no
recovery. -/
theorem analyse_report_file_errors (env : Env) (p : AnalyseParams)
    (hinst : (check_and_download_executable env).2 = Except.ok ())
    (hrun : env.run (analyseArgs (exePath env) p env.tmpDir) = 0) :
    (env.files (reportPath env) = none →
      analyse env p = Except.error (Err.fileNotFound (reportPath env))) ∧
    (env.files (reportPath env) = some FileContent.invalid →
      analyse env p = Except.error (Err.jsonDecodeError (reportPath env))) := by
  constructor <;> intro hfile <;> simp [analyse, hinst, hrun, hfile]

/-- Witness for C4: a concrete environment with no report file, and one
whose report file does not parse as JSON. -/
theorem analyse_report_file_errors_witness :
    analyse { envOk with files := fun _ => none } { modelPath := "m" } =
      Except.error (Err.fileNotFound (reportPath { envOk with files := fun _ => none })) ∧
    analyse { envOk with files := fun _ => some FileContent.invalid } { modelPath := "m" } =
      Except.error (Err.jsonDecodeError
        (reportPath { envOk with files := fun _ => some FileContent.invalid })) :=
  ⟨(analyse_report_file_errors { envOk with files := fun _ => none }
      { modelPath := "m" } rfl rfl).1 rfl,
   (analyse_report_file_errors { envOk with files := fun _ => some FileContent.invalid }
      { modelPath := "m" } rfl rfl).2 rfl⟩

/-- The dict comprehension succeeds exactly when every requested key is
present in the report. -/
theorem reportLookup_ok_iff (report : Json) (ks : List String) :
    (∃ pairs, reportLookup report ks = Except.ok pairs) ↔
      ∀ k ∈ ks, ∃ v, jsonGet report k = Except.ok v := by
  induction ks with
  | nil => simp [reportLookup]
  | cons k ks ih =>
    simp only [reportLookup, List.mem_cons, forall_eq_or_imp]
    cases hk : jsonGet report k with
    | error e => simp [hk]
    | ok v =>
      cases hrest : reportLookup report ks with
      | error e =>
        have : ¬ ∀ k' ∈ ks, ∃ v', jsonGet report k' = Except.ok v' := by
          intro hall
          obtain ⟨pairs, hp⟩ := ih.mpr hall
          rw [hrest] at hp
          exact Except.noConfusion hp
        simp [hk, this]
      | ok rest =>
        have hall : ∀ k' ∈ ks, ∃ v', jsonGet report k' = Except.ok v' :=
          ih.mp ⟨rest, hrest⟩
        simp only [hk]
        simp only [Except.ok.injEq, exists_eq]
        constructor
        · exact fun _ => ⟨⟨v, rfl⟩, hall⟩
        · exact fun _ => ⟨(k, v) :: rest, rfl⟩

/-- C10: the wrapper validates the report only for key presence: with
`full_report` unset, `analyse` succeeds iff every one of the five summary
keys is present in the parsed report (returning whatever values they hold);
with `full_report` set, the parsed report is returned with no key
validation at all. -/
theorem analyse_key_presence_only (env : Env) (p : AnalyseParams) (report : Json)
    (hinst : (check_and_download_executable env).2 = Except.ok ())
    (hrun : env.run (analyseArgs (exePath env) p env.tmpDir) = 0)
    (hfile : env.files (reportPath env) = some (FileContent.json report)) :
    (p.fullReport = true → analyse env p = Except.ok report) ∧
    (p.fullReport = false →
      ((∃ j, analyse env p = Except.ok j) ↔
        ∀ k ∈ summaryKeys, ∃ v, jsonGet report k = Except.ok v)) := by
  constructor <;> intro hfr
  · simp [analyse, hinst, hrun, hfile, hfr]
  · rw [← reportLookup_ok_iff]
    constructor
    · rintro ⟨j, hj⟩
      simp only [analyse, hinst, hrun, hfile, hfr] at hj
      simp only [if_true] at hj
      cases hlk : reportLookup report summaryKeys with
      | error e => rw [hlk] at hj; simp at hj
      | ok pairs => exact ⟨pairs, rfl⟩
    · rintro ⟨pairs, hp⟩
      refine ⟨Json.obj pairs, ?_⟩
      simp [analyse, hinst, hrun, hfile, hfr, hp]

/-- Witness for C10 at the concrete environment `envOk`: with `full_report`
set, the entire parsed report `report0` is returned unvalidated. -/
theorem analyse_key_presence_only_witness :
    analyse envOk { modelPath := "m", fullReport := true } = Except.ok report0 :=
  (analyse_key_presence_only envOk { modelPath := "m", fullReport := true }
    report0 rfl rfl rfl).1 rfl

/-- C3: when `generate` runs with the dll flag set (executable located,
process exit 0), it copies `libai_<N>.<EXT>` — `N` the sanitised supplied
name or `"network"` when none was supplied, `EXT` `dll` on Windows and `so`
otherwise — from the nested scratch subdirectory
`inspector_<N>/workspace/lib` into the requested output directory under the
same filename, and fails with `FileNotFoundError` when that file is
absent. -/
theorem generate_dll_copy (env : Env) (q : GenerateParams)
    (nn d src dst : String)
    (hinst : (check_and_download_executable env).2 = Except.ok ())
    (hrun : env.run (generateArgs (exePath env) q env.tmpDir) = 0)
    (hdll : q.dll = true)
    (hnn : nn = (match q.name with | none => "network" | some s => sanitize s))
    (hd : d = "libai_" ++ nn ++ "." ++ DLL_EXT env.platform)
    (hsrc : src = env.tmpDir ++ "/inspector_" ++ nn ++ "/workspace/lib/" ++ d)
    (hdst : dst = q.outputDir ++ "/" ++ d) :
    (env.files src = none →
      (generate env q).2 = Except.error (Err.fileNotFound src)) ∧
    (∀ c, env.files src = some c →
      generate env q =
        ((check_and_download_executable env).1 ++
          [Effect.runProc (generateArgs (exePath env) q env.tmpDir),
           Effect.copyFile src dst],
         Except.ok ())) := by
  subst hd hsrc hdst hnn
  constructor
  · intro hfile
    simp [generate, hinst, hrun, hdll, netName_eq, hfile]
  · intro c hfile
    simp [generate, hinst, hrun, hdll, netName_eq, hfile]

/-- Witness for C3 at the concrete environment `envOk` with a name
containing a space and a hyphen: the library `libai_mynet_x.so` is copied
from the nested scratch subdirectory into the output directory. -/
theorem generate_dll_copy_witness :
    generate envOk { modelPath := "m", name := some "my net-x", dll := true } =
      ([Effect.runProc (generateArgs (exePath envOk)
          { modelPath := "m", name := some "my net-x", dll := true } "/scratch"),
        Effect.copyFile "/scratch/inspector_mynet_x/workspace/lib/libai_mynet_x.so"
          "./libai_mynet_x.so"],
       Except.ok ()) := by
  have h := (generate_dll_copy envOk
    { modelPath := "m", name := some "my net-x", dll := true }
    "mynet_x" "libai_mynet_x.so"
    "/scratch/inspector_mynet_x/workspace/lib/libai_mynet_x.so"
    "./libai_mynet_x.so"
    rfl rfl rfl (by decide) (by decide) (by decide) (by decide)).2
    (FileContent.json report0) rfl
  simpa using h

end PyStm32Ai
